import Mathlib

/-!
Shallow embedding of the telemetry agent in
src/agent-dashboard/agent/python_agent/collector.py.

Conventions of the embedding:
* Python floats are modelled as exact rationals (ℚ); the arithmetic of the
  collector (differences, max-clamps, divisions by elapsed time and core
  count) is exact rational arithmetic.
* A call to an external command via _run_command has three outcomes in
  the Python code.  Either subprocess.run executes the command and it
  exits 0 (the raw output is returned), or it executes and exits
  nonzero (_run_command raises RuntimeError, which every collector
  catches with except RuntimeError), or subprocess.run itself raises —
  FileNotFoundError when the binary (wmic, powershell) is missing, or
  another OSError — which no collector catches, so it propagates out of
  _collect_snapshot.  This is modelled as SourceOutcome α:
  SourceOutcome.runs (Except.ok output) and
  SourceOutcome.runs (Except.error msg) are the two command-ran cases,
  with the Except.error always caught at the collector boundary, and
  SourceOutcome.raises msg is the uncaught exception from
  subprocess.run itself.  α is the parsed shape of the output that the
  Python code consumes (key=value lines for wmic queries, decoded JSON
  rows for the PowerShell queries).  JSON decoding failures, empty
  output, and JSON values that are neither object nor array all lead
  the Python code to the same empty result as a missing field, and are
  modelled as Except.ok none for the JSON-based collectors.
* The module-level mutable state (_PREVIOUS_CPU_TIMES and
  _PREVIOUS_COLLECTED_AT) is threaded explicitly as an AgentState value.
* time.strftime applied to time.gmtime(now) is abstracted to the numeric
  timestamp now that it formats; the collected_at field therefore holds
  that rational timestamp.
-/

/-- Model of the Python dict _PREVIOUS_CPU_TIMES (collector.py line 17):
an association list from pid to the last observed cumulative CPU seconds. -/
abbrev PidMap := List (Int × ℚ)

/-- Model of dict.get: first binding of the key, if any. -/
def pidLookup : PidMap → Int → Option ℚ
  | [], _ => none
  | (k, v) :: rest, pid => if k = pid then some v else pidLookup rest pid

/-- Model of dict assignment d[pid] = v: replace the existing binding,
or append a new one. -/
def pidStore : PidMap → Int → ℚ → PidMap
  | [], pid, v => [(pid, v)]
  | (k, w) :: rest, pid, v =>
      if k = pid then (k, v) :: rest else (k, w) :: pidStore rest pid v

/-- Embeds collector.py line 174, cpu_count = os.cpu_count() or 1.
Python or treats both None and 0 as falsy, so both map to 1. -/
def resolveCpuCount : Option ℕ → ℕ
  | none => 1
  | some 0 => 1
  | some n => n

/-- Embeds the per-process delta step of _collect_processes
(collector.py lines 196-202): look up the previous cumulative CPU value
for pid; when one exists and the interval is positive, the utilization is
max(cpuSeconds - previous, 0) / intervalSeconds * 100 / cpuCount,
otherwise it is absent; the new cumulative value is stored in the map
unconditionally. -/
def observe (prev : PidMap) (pid : Int) (cpuSeconds intervalSeconds : ℚ)
    (cpuCount : ℕ) : Option ℚ × PidMap :=
  let previousCpu := pidLookup prev pid
  let cpuPercent : Option ℚ :=
    match previousCpu with
    | some p =>
        if 0 < intervalSeconds then
          some (max (cpuSeconds - p) 0 / intervalSeconds * 100 / (cpuCount : ℚ))
        else none
    | none => none
  (cpuPercent, pidStore prev pid cpuSeconds)

/-- One decoded row of the Get-Process JSON output consumed by
_collect_processes.  pid models process.get(Id) together with the int()
conversion (absent key and failed conversion both skip the row, so both
are none); cpu models float(process.get(CPU, 0) or 0.0) with every
falsy or unparseable value already resolved to 0. -/
structure ProcRow where
  pid : Option Int
  processName : Option String
  cpu : ℚ
  workingSet64 : Option ℚ
deriving DecidableEq

/-- One entry of the processes list of a snapshot (collector.py
lines 211-218). -/
structure ProcessSample where
  pid : Int
  name : String
  cpu_percent : Option ℚ
  memory_mb : Option ℚ
deriving DecidableEq

/-- The body of the per-row loop of _collect_processes (collector.py
lines 177-218): a row missing its pid or name is skipped; otherwise the
row is fed through observe, its sample appended and the CPU map
threaded. -/
def procStep (intervalSeconds : ℚ) (cpuCount : ℕ)
    (acc : List ProcessSample × PidMap) (row : ProcRow) :
    List ProcessSample × PidMap :=
  match row.pid, row.processName with
  | some pid, some name =>
      let r := observe acc.2 pid row.cpu intervalSeconds cpuCount
      (acc.1 ++
        [{ pid := pid, name := name, cpu_percent := r.1,
           memory_mb := row.workingSet64.map
             (fun w => w / (1024 * 1024)) }], r.2)
  | _, _ => acc

/-- Embeds _collect_processes (collector.py lines 147-220) from the point
where the command outcome is known: a failed command, empty output, or
undecodable JSON yields the empty list and leaves the previous CPU map
untouched; otherwise each row with a usable pid and name is fed through
observe with the given interval and the resolved core count, threading
the CPU map, and rows missing pid or name are skipped. -/
def collectProcesses (src : Except String (Option (List ProcRow)))
    (intervalSeconds : ℚ) (rawCpuCount : Option ℕ) (prev : PidMap) :
    List ProcessSample × PidMap :=
  match src with
  | .error _ => ([], prev)
  | .ok none => ([], prev)
  | .ok (some rows) =>
      rows.foldl (procStep intervalSeconds (resolveCpuCount rawCpuCount))
        ([], prev)

/-- Embeds the line scan of _collect_cpu_percent (collector.py
lines 52-59): the first LoadPercentage= line decides the result, its
value being the parsed float or none when parsing fails. -/
def firstLoadPercentage : List (String × Option ℚ) → Option ℚ
  | [] => none
  | (key, value) :: rest =>
      if key = "LoadPercentage" then value else firstLoadPercentage rest

/-- Embeds _collect_cpu_percent (collector.py lines 46-59): a failed
command yields none, otherwise the scan of the output lines. -/
def collectCpuPercent (src : Except String (List (String × Option ℚ))) :
    Option ℚ :=
  match src with
  | .error _ => none
  | .ok lines => firstLoadPercentage lines

/-- The memory block of a snapshot (collector.py lines 74, 92, 98). -/
structure MemoryUsage where
  total_bytes : Option ℚ
  used_bytes : Option ℚ
deriving DecidableEq

/-- Embeds the line loop of _collect_memory (collector.py lines 79-89):
every TotalVisibleMemorySize= line overwrites the total, every
FreePhysicalMemory= line overwrites the free value (an unparseable value
overwrites with none), so the last matching line of each kind wins. -/
def scanMemoryLines : List (String × Option ℚ) → Option ℚ × Option ℚ →
    Option ℚ × Option ℚ
  | [], acc => acc
  | (key, value) :: rest, acc =>
      if key = "TotalVisibleMemorySize" then scanMemoryLines rest (value, acc.2)
      else if key = "FreePhysicalMemory" then scanMemoryLines rest (acc.1, value)
      else scanMemoryLines rest acc

/-- Embeds _collect_memory (collector.py lines 62-98): a failed command
or a missing total or free value yields both fields absent; otherwise
total_bytes = total_kb * 1024 and
used_bytes = max(total_bytes - free_bytes, 0). -/
def collectMemory (src : Except String (List (String × Option ℚ))) :
    MemoryUsage :=
  match src with
  | .error _ => ⟨none, none⟩
  | .ok lines =>
      match scanMemoryLines lines (none, none) with
      | (some totalKb, some freeKb) =>
          let totalBytes := totalKb * 1024
          let freeBytes := freeKb * 1024
          ⟨some totalBytes, some (max (totalBytes - freeBytes) 0)⟩
      | _ => ⟨none, none⟩

/-- One decoded row of the Win32_LogicalDisk JSON output consumed by
_collect_disks; each field is none when the key is missing, and for the
numeric fields also when float() conversion fails (both skip the row). -/
structure DiskRow where
  deviceId : Option String
  size : Option ℚ
  freeSpace : Option ℚ
deriving DecidableEq

/-- One entry of the disks list of a snapshot (collector.py
lines 135-141). -/
structure DiskUsage where
  device : String
  total_bytes : ℚ
  free_bytes : ℚ
deriving DecidableEq

/-- Embeds _collect_disks (collector.py lines 101-144): a failed command,
empty output, or undecodable JSON yields the empty list; otherwise rows
with all three fields usable are kept, the rest skipped. -/
def collectDisks (src : Except String (Option (List DiskRow))) :
    List DiskUsage :=
  match src with
  | .error _ => []
  | .ok none => []
  | .ok (some rows) =>
      rows.filterMap (fun d =>
        match d.deviceId, d.size, d.freeSpace with
        | some device, some total, some free => some ⟨device, total, free⟩
        | _, _, _ => none)

/-- One decoded row of the Get-WinEvent JSON output consumed by
_collect_events. -/
structure EventRow where
  timeCreated : Option String
  eventId : Option Int
  levelDisplayName : Option String
  providerName : Option String
  message : Option String
deriving DecidableEq

/-- One entry of the events list of a snapshot (collector.py
lines 250-258). -/
structure EventRecord where
  timestamp : Option String
  id : Option String
  level : Option String
  source : Option String
  message : Option String
deriving DecidableEq

/-- Embeds _collect_events (collector.py lines 223-259): a failed
command, empty output, or undecodable JSON yields the empty list;
otherwise every row is passed through with field renaming and the id
rendered as a string when present. -/
def collectEvents (src : Except String (Option (List EventRow))) :
    List EventRecord :=
  match src with
  | .error _ => []
  | .ok none => []
  | .ok (some rows) =>
      rows.map (fun e =>
        ⟨e.timeCreated, e.eventId.map toString, e.levelDisplayName,
         e.providerName, e.message⟩)

/-- The metrics block of a snapshot (collector.py lines 290-294). -/
structure Metrics where
  cpu_percent : Option ℚ
  memory : MemoryUsage
  disks : List DiskUsage
deriving DecidableEq

/-- The snapshot record built by _collect_snapshot (collector.py
lines 285-297); collected_at holds the numeric timestamp that
time.strftime formats. -/
structure Snapshot where
  agent_id : String
  hostname : String
  ip : Option String
  collected_at : ℚ
  metrics : Metrics
  processes : List ProcessSample
  events : List EventRecord
deriving DecidableEq

/-- The configuration read from the environment at module load
(collector.py lines 10-15); only the fields the core loop consumes. -/
structure AgentConfig where
  agentId : String
  pollInterval : ℚ
deriving DecidableEq

/-- The outcome of one external command invocation as seen by a
collector.  runs means subprocess.run executed the command: Except.ok
carries the parsed output of a zero exit, Except.error the RuntimeError
that _run_command (collector.py lines 28-31) raises on a nonzero exit
and that the collector catches with except RuntimeError.  raises means
subprocess.run itself raised — FileNotFoundError for a missing binary,
or another OSError — which except RuntimeError does not catch, so the
exception escapes the collector. -/
inductive SourceOutcome (α : Type) where
  | runs (outcome : Except String α)
  | raises (msg : String)

/-- The outcomes of the five sub-sources plus the host identity lookups
that one call of _collect_snapshot consumes. ipAddress is none when
socket.gethostbyname raised OSError; rawCpuCount models
os.cpu_count(). -/
structure SourceData where
  cpuSrc : SourceOutcome (List (String × Option ℚ))
  memSrc : SourceOutcome (List (String × Option ℚ))
  diskSrc : SourceOutcome (Option (List DiskRow))
  procSrc : SourceOutcome (Option (List ProcRow))
  eventSrc : SourceOutcome (Option (List EventRow))
  hostname : String
  ipAddress : Option String
  rawCpuCount : Option ℕ

/-- The module-level mutable state of collector.py (lines 17-18),
threaded explicitly. -/
structure AgentState where
  previousCpuTimes : PidMap
  previousCollectedAt : Option ℚ
deriving DecidableEq

/-- Embeds _collect_snapshot (collector.py lines 262-297): the interval
is now - previousCollectedAt, or the configured poll interval on the
first cycle ever; previousCollectedAt is set to now before anything else
runs (line 271); the five sub-sources are then queried in order — cpu,
memory, disks, processes, events (lines 273-277) — and assembled with
the agent identity, hostname, best-effort ip, and timestamp.  A
sub-source whose command ran (SourceOutcome.runs) is handled entirely
inside its collector, failure included; a sub-source whose invocation
raised outside RuntimeError (SourceOutcome.raises) propagates its
exception out of _collect_snapshot, modelled as Except.error, and the
sources after it never run.  The returned state reflects the mutations
made up to that point: the timestamp is already updated in every case,
and the CPU-times map is updated exactly when _collect_processes was
reached. -/
def collectSnapshot (cfg : AgentConfig) (src : SourceData) (now : ℚ)
    (st : AgentState) : Except String Snapshot × AgentState :=
  let interval : ℚ :=
    match st.previousCollectedAt with
    | some p => now - p
    | none => cfg.pollInterval
  match src.cpuSrc with
  | .raises m => (.error m, ⟨st.previousCpuTimes, some now⟩)
  | .runs cpuE =>
    match src.memSrc with
    | .raises m => (.error m, ⟨st.previousCpuTimes, some now⟩)
    | .runs memE =>
      match src.diskSrc with
      | .raises m => (.error m, ⟨st.previousCpuTimes, some now⟩)
      | .runs diskE =>
        match src.procSrc with
        | .raises m => (.error m, ⟨st.previousCpuTimes, some now⟩)
        | .runs procE =>
          let procResult := collectProcesses procE interval src.rawCpuCount
            st.previousCpuTimes
          match src.eventSrc with
          | .raises m => (.error m, ⟨procResult.2, some now⟩)
          | .runs evE =>
            (.ok ⟨cfg.agentId, src.hostname, src.ipAddress, now,
              ⟨collectCpuPercent cpuE, collectMemory memE,
               collectDisks diskE⟩, procResult.1, collectEvents evE⟩,
             ⟨procResult.2, some now⟩)

/-- Descending order on the CPU field of process rows, the sort key the
agent requests from its process source. -/
def cpuDescending (a b : ProcRow) : Prop := b.cpu ≤ a.cpu

instance : DecidableRel cpuDescending :=
  fun a b => inferInstanceAs (Decidable (b.cpu ≤ a.cpu))

instance : IsTotal ProcRow cpuDescending := ⟨fun a b => le_total b.cpu a.cpu⟩

instance : IsTrans ProcRow cpuDescending :=
  ⟨fun _ _ _ h1 h2 => le_trans h2 h1⟩

/-- Modelled from the spec: the process rows are produced outside the
Python code by the external PowerShell pipeline requested at
collector.py lines 149-154, Sort-Object CPU -Descending followed by
Select-Object -First maxProcesses — a sort on the CPU key alone (no
secondary key is requested) followed by truncation.  Modelled as a
stable sort on the CPU key. -/
def processPipeline (rows : List ProcRow) (maxProcesses : ℕ) : List ProcRow :=
  (List.insertionSort cpuDescending rows).take maxProcesses

/-- Outcome of the urllib HTTP exchange of _post_snapshot: either a
response carrying a status, or a network or timeout failure raising with
a message. -/
inductive HttpOutcome where
  | response (status : ℕ)
  | networkFailure (message : String)
deriving DecidableEq

/-- Embeds _post_snapshot (collector.py lines 300-313) with the raised
exception materialized as an Except.error value: a serialization failure
of the body propagates its message, a network failure its message, and a
response with status at least 400 raises the RuntimeError of line 313. -/
def postSnapshot (body : Except String String) (http : HttpOutcome) :
    Except String Unit :=
  match body with
  | .error msg => .error msg
  | .ok _ =>
      match http with
      | .networkFailure msg => .error msg
      | .response status =>
          if 400 ≤ status then
            .error ("Ingest failed with status " ++ toString status)
          else .ok ()

/-- The single log line one cycle of main produces (collector.py
lines 320-331). -/
inductive CycleLog where
  | sent (agentId : String)
  | failed (message : String)
deriving DecidableEq

/-- Embeds the try block of one cycle of main (collector.py
lines 322-331): a successful delivery logs the agent id, any error value
is caught and logged with its cause; the cycle itself never propagates
an exception. -/
def runCycle (snapshot : Snapshot) (delivery : Except String Unit) :
    CycleLog :=
  match delivery with
  | .ok _ => .sent snapshot.agent_id
  | .error msg => .failed ("Error collecting or sending metrics: " ++ msg)

/-- Embeds the sleep computation of main (collector.py line 334):
sleep_time = max(POLL_INTERVAL - elapsed, 5). -/
def sleepTime (pollInterval elapsed : ℚ) : ℚ := max (pollInterval - elapsed) 5

/-! ### Helper lemmas about the delta tracker -/

theorem pidLookup_pidStore_self (m : PidMap) (pid : Int) (v : ℚ) :
    pidLookup (pidStore m pid v) pid = some v := by
  induction m with
  | nil => simp [pidStore, pidLookup]
  | cons kv rest ih =>
      obtain ⟨k, w⟩ := kv
      by_cases h : k = pid
      · simp [pidStore, pidLookup, h]
      · simp [pidStore, pidLookup, h, ih]

theorem observe_fst_of_lookup_none {prev : PidMap} {pid : Int}
    (c e : ℚ) (n : ℕ) (h : pidLookup prev pid = none) :
    (observe prev pid c e n).1 = none := by
  simp [observe, h]

theorem observe_fst_of_lookup_some_pos {prev : PidMap} {pid : Int} {p : ℚ}
    (c : ℚ) {e : ℚ} (n : ℕ) (h : pidLookup prev pid = some p)
    (he : 0 < e) :
    (observe prev pid c e n).1 =
      some (max (c - p) 0 / e * 100 / (n : ℚ)) := by
  simp [observe, h, he]

theorem observe_fst_of_nonpos {prev : PidMap} {pid : Int} (c : ℚ) {e : ℚ}
    (n : ℕ) (he : e ≤ 0) : (observe prev pid c e n).1 = none := by
  have hne : ¬ 0 < e := not_lt.mpr he
  cases h : pidLookup prev pid with
  | none => simp [observe, h]
  | some p => simp [observe, h, hne]

theorem observe_snd (prev : PidMap) (pid : Int) (c e : ℚ) (n : ℕ) :
    (observe prev pid c e n).2 = pidStore prev pid c := rfl

theorem utilization_nonneg {c p e : ℚ} (n : ℕ) (he : 0 < e) :
    0 ≤ max (c - p) 0 / e * 100 / (n : ℚ) :=
  div_nonneg
    (mul_nonneg (div_nonneg (le_max_right _ _) he.le) (by norm_num))
    (Nat.cast_nonneg n)

theorem procStep_foldl_absent {e : ℚ} (cnt : ℕ) (he : e ≤ 0) :
    ∀ (rows : List ProcRow) (acc : List ProcessSample × PidMap),
      (∀ s ∈ acc.1, s.cpu_percent = none) →
      ∀ s ∈ (rows.foldl (procStep e cnt) acc).1, s.cpu_percent = none := by
  intro rows
  induction rows with
  | nil => intro acc hacc; simpa using hacc
  | cons row rest ih =>
      intro acc hacc
      simp only [List.foldl_cons]
      apply ih
      intro s hs
      rcases hp : row.pid with _ | pid <;>
        rcases hn : row.processName with _ | name <;>
          simp only [procStep, hp, hn] at hs
      · exact hacc s hs
      · exact hacc s hs
      · exact hacc s hs
      · rcases List.mem_append.mp hs with hmem | hmem
        · exact hacc s hmem
        · rw [List.mem_singleton.mp hmem]
          exact observe_fst_of_nonpos row.cpu cnt he

/-! ### Claim theorems: the delta tracker -/

/-- Claim C2: whenever a previous cumulative value p is stored for a pid
and the elapsed interval e is positive, observe returns
max(c - p, 0) / e * 100 / n; in particular observing 10 then 15 over 10
seconds on 1 core yields 50 on the second call, and observing 10 then 8
(counter regression) yields 0, never a negative value. -/
theorem observe_formula_and_examples :
    (∀ (prev : PidMap) (pid : Int) (p c e : ℚ) (n : ℕ),
        pidLookup prev pid = some p → 0 < e →
        (observe prev pid c e n).1 =
          some (max (c - p) 0 / e * 100 / (n : ℚ))) ∧
    (observe (observe [] 1 10 10 1).2 1 15 10 1).1 = some 50 ∧
    (observe (observe [] 1 10 10 1).2 1 8 10 1).1 = some 0 := by
  refine ⟨fun prev pid p c e n h he =>
    observe_fst_of_lookup_some_pos c n h he, ?_, ?_⟩
  · rw [show (observe [] 1 10 10 1).2 = [((1 : Int), (10 : ℚ))] from rfl,
      observe_fst_of_lookup_some_pos (p := 10) 15 1 (by decide) (by norm_num)]
    norm_num [max_def]
  · rw [show (observe [] 1 10 10 1).2 = [((1 : Int), (10 : ℚ))] from rfl,
      observe_fst_of_lookup_some_pos (p := 10) 8 1 (by decide) (by norm_num)]
    norm_num [max_def]

/-- Witness for C2: the hypotheses of the general formula hold at the
concrete map storing 10 for pid 1, observed at 15 over 10 seconds. -/
theorem observe_formula_and_examples_witness :
    pidLookup [((1 : Int), (10 : ℚ))] 1 = some 10 ∧ (0 : ℚ) < 10 ∧
    (observe [((1 : Int), (10 : ℚ))] 1 15 10 1).1 =
      some (max ((15 : ℚ) - 10) 0 / 10 * 100 / ((1 : ℕ) : ℚ)) :=
  ⟨by decide, by norm_num,
   observe_formula_and_examples.1 [((1 : Int), (10 : ℚ))] 1 10 15 10 1
     (by decide) (by norm_num)⟩

/-- Claim C3 counterexample: after a first observation of pid 1, a second
observation with elapsed interval 0 returns absent, so it is not the case
that every subsequent call returns a numeric value ≥ 0. -/
theorem observe_second_call_not_always_numeric :
    ¬ ∃ v : ℚ, (observe (observe [] 1 10 10 1).2 1 12 0 1).1 = some v ∧
      0 ≤ v := by
  have h : (observe (observe [] 1 10 10 1).2 1 12 0 1).1 = none := by
    rw [show (observe [] 1 10 10 1).2 = [((1 : Int), (10 : ℚ))] from rfl]
    simp [observe, pidLookup]
  intro hex
  obtain ⟨v, hv, _⟩ := hex
  rw [h] at hv
  exact Option.noConfusion hv

/-- Claim C3 (amended): for every sequence of observe calls and every
pid, the first call for that pid returns absent; every subsequent call
with a positive elapsed interval returns a numeric value ≥ 0, and with a
nonpositive elapsed interval returns absent; and the new cumulative
value is stored unconditionally on every observation, so the next cycle
diffs against the latest reading. -/
theorem observe_first_absent_subsequent_nonneg :
    (∀ (prev : PidMap) (pid : Int) (c e : ℚ) (n : ℕ),
        pidLookup prev pid = none → (observe prev pid c e n).1 = none) ∧
    (∀ (prev : PidMap) (pid : Int) (p c e : ℚ) (n : ℕ),
        pidLookup prev pid = some p → 0 < e →
        ∃ v, (observe prev pid c e n).1 = some v ∧ 0 ≤ v) ∧
    (∀ (prev : PidMap) (pid : Int) (c e : ℚ) (n : ℕ),
        e ≤ 0 → (observe prev pid c e n).1 = none) ∧
    (∀ (prev : PidMap) (pid : Int) (c e : ℚ) (n : ℕ),
        pidLookup (observe prev pid c e n).2 pid = some c) := by
  refine ⟨fun prev pid c e n h => observe_fst_of_lookup_none c e n h,
    fun prev pid p c e n h he =>
      ⟨max (c - p) 0 / e * 100 / (n : ℚ),
        observe_fst_of_lookup_some_pos c n h he, utilization_nonneg n he⟩,
    fun prev pid c e n he => observe_fst_of_nonpos c n he,
    fun prev pid c e n => ?_⟩
  rw [observe_snd]
  exact pidLookup_pidStore_self prev pid c

/-- Witness for the amended C3: concrete first call returning absent,
concrete subsequent call returning a nonnegative value, and the stored
value visible afterwards. -/
theorem observe_first_absent_subsequent_nonneg_witness :
    (observe [] 1 10 10 1).1 = none ∧
    (∃ v, (observe [((1 : Int), (10 : ℚ))] 1 15 10 1).1 = some v ∧
      0 ≤ v) ∧
    pidLookup (observe [((1 : Int), (10 : ℚ))] 1 15 10 1).2 1 = some 15 :=
  ⟨observe_first_absent_subsequent_nonneg.1 [] 1 10 10 1 rfl,
   observe_first_absent_subsequent_nonneg.2.1 [((1 : Int), (10 : ℚ))] 1 10
     15 10 1 (by decide) (by norm_num),
   observe_first_absent_subsequent_nonneg.2.2.2 [((1 : Int), (10 : ℚ))] 1
     15 10 1⟩

/-- Claim C4: whenever the elapsed interval is ≤ 0, observe returns
absent regardless of the cumulative values, and every process sample of
that collection cycle has absent utilization; the functions are total,
so no exception is possible. -/
theorem nonpositive_interval_utilization_absent :
    (∀ (prev : PidMap) (pid : Int) (c e : ℚ) (n : ℕ), e ≤ 0 →
        (observe prev pid c e n).1 = none) ∧
    (∀ (src : Except String (Option (List ProcRow))) (e : ℚ)
        (rawN : Option ℕ) (prev : PidMap), e ≤ 0 →
        ∀ s ∈ (collectProcesses src e rawN prev).1,
          s.cpu_percent = none) := by
  refine ⟨fun prev pid c e n he => observe_fst_of_nonpos c n he,
    fun src e rawN prev he => ?_⟩
  match src with
  | .error msg => intro s hs; simp [collectProcesses] at hs
  | .ok none => intro s hs; simp [collectProcesses] at hs
  | .ok (some rows) =>
      exact procStep_foldl_absent (resolveCpuCount rawN) he rows ([], prev)
        (by intro s hs; simp at hs)

/-- Witness for C4: a concrete cycle with elapsed 0 over a row whose pid
has a stored previous value still yields an absent utilization. -/
theorem nonpositive_interval_utilization_absent_witness :
    (observe [((1 : Int), (10 : ℚ))] 1 99 0 1).1 = none ∧
    (⟨1, "p", none, none⟩ : ProcessSample) ∈
      (collectProcesses (.ok (some [⟨some 1, some "p", 99, none⟩])) 0
        (some 1) [((1 : Int), (10 : ℚ))]).1 ∧
    (⟨1, "p", none, none⟩ : ProcessSample).cpu_percent = none := by
  have hmem : (⟨1, "p", none, none⟩ : ProcessSample) ∈
      (collectProcesses (.ok (some [⟨some 1, some "p", 99, none⟩])) 0
        (some 1) [((1 : Int), (10 : ℚ))]).1 := by
    simp [collectProcesses, procStep, observe, pidLookup, resolveCpuCount]
  exact ⟨nonpositive_interval_utilization_absent.1 [((1 : Int), (10 : ℚ))]
      1 99 0 1 (le_refl 0), hmem,
    nonpositive_interval_utilization_absent.2
      (.ok (some [⟨some 1, some "p", 99, none⟩])) 0 (some 1)
      [((1 : Int), (10 : ℚ))] (le_refl 0) ⟨1, "p", none, none⟩ hmem⟩

/-! ### Claim theorems: snapshot assembly -/

/-- Claim C1 (code bug): the claim — and the spec contract it restates —
says assemble never raises, every sub-source failure degrading to an
absent or empty value.  The collectors do contain every failure of a
command that ran and exited nonzero (the RuntimeError of _run_command is
caught at each collector boundary): the second conjunct shows that with
all five sub-source commands failing that way, assembly still returns
the well-formed snapshot with agent id, hostname and timestamp populated
and every metric field absent or empty.  But except RuntimeError is the
only handler, and subprocess.run raises FileNotFoundError when the wmic
or powershell binary is missing (a condition spec section 7 explicitly
assigns to SourceUnavailable containment): that exception escapes
_collect_snapshot and aborts the whole snapshot, as the first conjunct
evaluates at the failing input — cpu sub-source raising
FileNotFoundError, every other source healthy. -/
theorem assemble_raises_on_missing_binary :
    ((collectSnapshot ⟨"agent-1", 30⟩
        ⟨.raises "FileNotFoundError: wmic", .runs (.ok []),
         .runs (.ok none), .runs (.ok none), .runs (.ok none),
         "host-1", none, none⟩ 0 ⟨[], none⟩).1 =
      .error "FileNotFoundError: wmic") ∧
    ((collectSnapshot ⟨"agent-1", 30⟩
        ⟨.runs (.error "down"), .runs (.error "down"),
         .runs (.error "down"), .runs (.error "down"),
         .runs (.error "down"), "host-1", none, none⟩ 0 ⟨[], none⟩).1 =
      .ok ⟨"agent-1", "host-1", none, 0, ⟨none, ⟨none, none⟩, []⟩,
        [], []⟩) := by
  exact ⟨rfl, rfl⟩

/-- Claim C5: whenever a snapshot is assembled, the interval fed to the
per-process delta computation is now minus the previous collection
timestamp (the true wall-clock gap), or the configured nominal interval
on the first cycle ever; and the previous-collection timestamp becomes
now on every cycle, whatever the sub-source outcomes are — even when a
sub-source raises and the cycle aborts — and before any delivery
happens. -/
theorem snapshot_interval_true_wall_clock_gap :
    ∀ (cfg : AgentConfig) (src : SourceData) (now : ℚ) (st : AgentState),
      (∀ p, st.previousCollectedAt = some p →
        ∀ e snap, src.procSrc = .runs e →
          (collectSnapshot cfg src now st).1 = .ok snap →
          snap.processes = (collectProcesses e (now - p) src.rawCpuCount
            st.previousCpuTimes).1) ∧
      (st.previousCollectedAt = none →
        ∀ e snap, src.procSrc = .runs e →
          (collectSnapshot cfg src now st).1 = .ok snap →
          snap.processes = (collectProcesses e cfg.pollInterval
            src.rawCpuCount st.previousCpuTimes).1) ∧
      (collectSnapshot cfg src now st).2.previousCollectedAt = some now := by
  intro cfg src now st
  obtain ⟨cpuS, memS, diskS, procS, evS, host, ip, rawN⟩ := src
  refine ⟨?_, ?_, ?_⟩
  · intro p hp e snap he hsnap
    cases cpuS <;> cases memS <;> cases diskS <;> cases procS <;>
      cases evS <;> simp_all [collectSnapshot]
    subst hsnap
    rfl
  · intro hn e snap he hsnap
    cases cpuS <;> cases memS <;> cases diskS <;> cases procS <;>
      cases evS <;> simp_all [collectSnapshot]
    subst hsnap
    rfl
  · cases cpuS <;> cases memS <;> cases diskS <;> cases procS <;>
      cases evS <;> rfl

/-- Witness for C5: with a previous collection at 40 and a current cycle
at 100 the delta computation receives 60 = 100 - 40, and the stored
timestamp becomes 100. -/
theorem snapshot_interval_true_wall_clock_gap_witness :
    (⟨"a", "h", none, 100, ⟨none, ⟨none, none⟩, []⟩, [], []⟩ :
        Snapshot).processes =
      (collectProcesses (.ok none) (100 - 40) none []).1 ∧
    (collectSnapshot ⟨"a", 30⟩
        ⟨.runs (.ok []), .runs (.ok []), .runs (.ok none),
         .runs (.ok none), .runs (.ok none), "h", none, none⟩ 100
        ⟨[], some 40⟩).2.previousCollectedAt = some 100 := by
  have h := snapshot_interval_true_wall_clock_gap ⟨"a", 30⟩
    ⟨.runs (.ok []), .runs (.ok []), .runs (.ok none), .runs (.ok none),
     .runs (.ok none), "h", none, none⟩ 100 ⟨[], some 40⟩
  exact ⟨h.1 40 rfl (.ok none)
    ⟨"a", "h", none, 100, ⟨none, ⟨none, none⟩, []⟩, [], []⟩ rfl rfl,
    h.2.2⟩

/-! ### Claim theorems: process ordering -/

/-- Claim C6 counterexample: two rows tied on CPU (pid 5 before pid 2,
both with cpu 3) survive the pipeline in source order, so the assembled
process list is [5, 2] and not the pid-ascending [2, 5] the claimed
tie-break requires. -/
theorem process_order_tie_not_pid_ascending :
    ((collectProcesses (.ok (some (processPipeline
        [⟨some 5, some "a", 3, none⟩, ⟨some 2, some "b", 3, none⟩] 2)))
        10 (some 1) []).1.map (fun s => s.pid)) = [5, 2] ∧
    ((collectProcesses (.ok (some (processPipeline
        [⟨some 5, some "a", 3, none⟩, ⟨some 2, some "b", 3, none⟩] 2)))
        10 (some 1) []).1.map (fun s => s.pid)) ≠ [2, 5] := by
  decide

/-- Claim C6 (amended): the process source pipeline orders rows by CPU
consumption descending — ties kept in source order, no pid tie-break —
and truncates to the configured maximum count; for the sample inputs
pid 1 at cpu 5, pid 2 at cpu 9 and pid 3 at cpu 1 with max-count 2, the
assembled snapshot's process list has length 2 and contains pids 2 and 1
in that order. -/
theorem process_order_cpu_descending_truncated :
    (∀ (rows : List ProcRow) (m : ℕ),
        List.Sorted cpuDescending (processPipeline rows m) ∧
        (processPipeline rows m).length ≤ m) ∧
    ((collectProcesses (.ok (some (processPipeline
        [⟨some 1, some "p1", 5, none⟩, ⟨some 2, some "p2", 9, none⟩,
         ⟨some 3, some "p3", 1, none⟩] 2))) 10 (some 1) []).1.map
        (fun s => s.pid) = [2, 1] ∧
     (collectProcesses (.ok (some (processPipeline
        [⟨some 1, some "p1", 5, none⟩, ⟨some 2, some "p2", 9, none⟩,
         ⟨some 3, some "p3", 1, none⟩] 2))) 10 (some 1) []).1.length =
      2) := by
  refine ⟨fun rows m => ⟨?_, ?_⟩, by decide, by decide⟩
  · exact List.Pairwise.sublist (List.take_sublist _ _)
      (List.sorted_insertionSort cpuDescending rows)
  · simp [processPipeline]

/-! ### Claim theorems: delivery, polling loop, core count, memory -/

/-- Claim C7: a serialization failure, a network or timeout failure, and
every HTTP status ≥ 400 (for example 500) are reported by the send path
as an error value carrying a human-readable cause, and the enclosing
cycle catches every such error into its log line, so nothing propagates
uncaught. -/
theorem delivery_errors_reported_never_raise :
    (∀ (payload : String) (s : ℕ), 400 ≤ s →
        postSnapshot (.ok payload) (.response s) =
          .error ("Ingest failed with status " ++ toString s)) ∧
    (postSnapshot (.ok "payload") (.response 500) =
        .error "Ingest failed with status 500") ∧
    (∀ (payload msg : String),
        postSnapshot (.ok payload) (.networkFailure msg) = .error msg) ∧
    (∀ (msg : String) (http : HttpOutcome),
        postSnapshot (.error msg) http = .error msg) ∧
    (∀ (snapshot : Snapshot) (msg : String),
        runCycle snapshot (.error msg) =
          .failed ("Error collecting or sending metrics: " ++ msg)) ∧
    (∀ (snapshot : Snapshot) (delivery : Except String Unit),
        (∃ a, runCycle snapshot delivery = .sent a) ∨
        (∃ m, runCycle snapshot delivery = .failed m)) := by
  refine ⟨fun payload s hs => by simp [postSnapshot, hs], rfl,
    fun payload msg => rfl, fun msg http => rfl, fun snapshot msg => rfl,
    fun snapshot delivery => ?_⟩
  match delivery with
  | .ok _ => exact Or.inl ⟨snapshot.agent_id, rfl⟩
  | .error m =>
      exact Or.inr ⟨"Error collecting or sending metrics: " ++ m, rfl⟩

/-- Witness for C7: status 500 satisfies 400 ≤ s and yields the error
value with its cause. -/
theorem delivery_errors_reported_never_raise_witness :
    400 ≤ 500 ∧
    postSnapshot (.ok "payload") (.response 500) =
      .error ("Ingest failed with status " ++ toString 500) :=
  ⟨by norm_num,
   delivery_errors_reported_never_raise.1 "payload" 500 (by norm_num)⟩

/-- Claim C8: every cycle sleeps max(nominalInterval - cycleElapsed, 5),
so the loop never sleeps less than the 5-second floor, even when the
cycle took longer than the nominal interval. -/
theorem sleep_never_below_floor :
    (∀ (p e : ℚ), sleepTime p e = max (p - e) 5) ∧
    (∀ (p e : ℚ), 5 ≤ sleepTime p e) ∧
    (∀ (p e : ℚ), p < e → sleepTime p e = 5) := by
  refine ⟨fun p e => rfl, fun p e => le_max_right _ _, fun p e h => ?_⟩
  have hle : p - e ≤ 5 := by linarith
  simp [sleepTime, max_eq_right hle]

/-- Witness for C8: a 31-second cycle against a 30-second nominal
interval still sleeps exactly the 5-second floor. -/
theorem sleep_never_below_floor_witness :
    (30 : ℚ) < 31 ∧ sleepTime 30 31 = 5 :=
  ⟨by norm_num, sleep_never_below_floor.2.2 30 31 (by norm_num)⟩

theorem resolveCpuCount_pos (raw : Option ℕ) : 0 < resolveCpuCount raw := by
  match raw with
  | none => decide
  | some 0 => decide
  | some (n + 1) => exact Nat.succ_pos n

/-- Claim C9: an unavailable or zero reported core count resolves to 1,
and the resolved core count is always positive, so the core-count
divisor of the utilization computation is never zero. -/
theorem core_count_never_zero :
    resolveCpuCount none = 1 ∧ resolveCpuCount (some 0) = 1 ∧
    (∀ raw, 0 < resolveCpuCount raw) ∧
    (∀ raw, ((resolveCpuCount raw : ℕ) : ℚ) ≠ 0) :=
  ⟨rfl, rfl, resolveCpuCount_pos, fun raw =>
    Nat.cast_ne_zero.mpr (Nat.pos_iff_ne_zero.mp (resolveCpuCount_pos raw))⟩

/-- Claim C10: the memory reading has total and used either both absent
or both present; when present, used equals
max(total_bytes - free_bytes, 0), hence used is never negative even when
the source reports more free than total memory. -/
theorem memory_both_or_neither_and_clamped :
    ∀ (src : Except String (List (String × Option ℚ))),
      ((collectMemory src = ⟨none, none⟩) ∨
        (∃ t u, collectMemory src = ⟨some t, some u⟩ ∧ 0 ≤ u)) ∧
      (∀ lines t f, src = .ok lines →
        scanMemoryLines lines (none, none) = (some t, some f) →
        collectMemory src =
          ⟨some (t * 1024), some (max (t * 1024 - f * 1024) 0)⟩) := by
  intro src
  constructor
  · match src with
    | .error m => exact Or.inl rfl
    | .ok lines =>
        rcases h : scanMemoryLines lines (none, none) with ⟨tv, fv⟩
        match tv, fv with
        | some t, some f =>
            exact Or.inr ⟨t * 1024, max (t * 1024 - f * 1024) 0,
              by simp [collectMemory, h], le_max_right _ _⟩
        | none, none => exact Or.inl (by simp [collectMemory, h])
        | none, some f => exact Or.inl (by simp [collectMemory, h])
        | some t, none => exact Or.inl (by simp [collectMemory, h])
  · intro lines t f hsrc hscan
    subst hsrc
    simp [collectMemory, hscan]

/-- Witness for C10: a reading of 4 KB total and 10 KB free (more free
than total) produces total_bytes 4096 and used_bytes clamped at 0. -/
theorem memory_both_or_neither_and_clamped_witness :
    collectMemory (.ok [("TotalVisibleMemorySize", some 4),
        ("FreePhysicalMemory", some 10)]) =
      ⟨some ((4 : ℚ) * 1024), some (max ((4 : ℚ) * 1024 - 10 * 1024) 0)⟩ :=
  (memory_both_or_neither_and_clamped
      (.ok [("TotalVisibleMemorySize", some 4),
        ("FreePhysicalMemory", some 10)])).2
    [("TotalVisibleMemorySize", some 4), ("FreePhysicalMemory", some 10)]
    4 10 rfl (by decide)
